import Mathlib

/-!
Shallow embedding of the extraction engine of the `squashfs` Go package
(`extract.go`, `libcfsops.go`).  Filesystem effects are modelled by an
explicit environment `Env` that fixes the result of every primitive
operation, and every modelled function additionally returns the ordered
trace of primitive operations it issued, so that ordering claims
("chmod never happens on a symlink", "cleanups run after the walk") are
statable as facts about the trace.
-/

namespace Squashfs

/-- Go `os.FileMode` bit constants (from the Go standard library),
modelled as natural numbers. -/
def ModeDir : Nat := 2 ^ 31

/-- Go `os.ModeSymlink`. -/
def ModeSymlink : Nat := 2 ^ 27

/-- Go `os.ModeDevice`. -/
def ModeDevice : Nat := 2 ^ 26

/-- Go `os.ModeNamedPipe`. -/
def ModeNamedPipe : Nat := 2 ^ 25

/-- Go `os.ModeSocket`. -/
def ModeSocket : Nat := 2 ^ 24

/-- Go `os.ModeCharDevice`. -/
def ModeCharDevice : Nat := 2 ^ 21

/-- Go `os.ModeIrregular`. -/
def ModeIrregular : Nat := 2 ^ 19

/-- Go `os.ModeType`: the union of all type bits. -/
def ModeType : Nat :=
  ModeDir ||| ModeSymlink ||| ModeNamedPipe ||| ModeSocket |||
    ModeDevice ||| ModeCharDevice ||| ModeIrregular

/-- `DefaultFilePerm` from `extract.go`. -/
def DefaultFilePerm : Nat := 0o644

/-- `DefaultDirPerm` from `extract.go`. -/
def DefaultDirPerm : Nat := 0o755

/-- `OpenDirPerm` from `extract.go`. -/
def OpenDirPerm : Nat := 0o777

/-- Go error values, as the extraction code distinguishes them:
`filepath.SkipDir`, `os.ErrExist` (recognised by `os.IsExist`), plain
formatted errors, I/O errors, and the size-mismatch error built in
`extractRegular`. -/
inductive GoErr where
  | skipDir
  | errExist
  | ioErr (s : String)
  | msg (s : String)
  | sizeMismatch (written : Int) (target : String) (expected : Int) (srcPath : String)
deriving DecidableEq, Repr

/-- The `FileInfo` struct of `libcfsops.go`, with the fields of the
`syscall.Stat_t` produced by `FileInfo.Sys()` (uid, gid, rdev) folded in.
`FMode` is the Go `os.FileMode` word. -/
structure FileInfo where
  Filename : String := ""
  FSize : Int := 0
  FMode : Nat := 0
  SymlinkTarget : String := ""
  uid : Nat := 0
  gid : Nat := 0
  rdev : Nat := 0
deriving DecidableEq, Repr

/-- Result of `os.Stat`/`os.Lstat` on the target filesystem: just the mode
word, which is all the extraction code inspects. -/
structure OsStat where
  mode : Nat := 0
deriving DecidableEq, Repr

/-- Result of the `os.Lstat(path)` call in `prepWrite`, distinguishing the
`os.IsNotExist` case the way the Go code does. -/
inductive LstatRes where
  | notExist
  | err (e : GoErr)
  | ok (st : OsStat)
deriving DecidableEq, Repr

/-- One primitive filesystem operation issued by the engine.  Traces of
these model the order in which the engine touches the target tree. -/
inductive FsOp where
  | chmod (p : String) (m : Nat)
  | chown (p : String) (u g : Nat)
  | mkdirOp (p : String) (m : Nat)
  | symlinkOp (target p : String)
  | mkfifoOp (p : String)
  | listenOp (p : String)
  | mknodOp (p : String)
  | openOp (p : String)
  | copyOp (p : String)
  | removeAllOp (p : String)
  | removeOp (p : String)
deriving DecidableEq, Repr

/-- The ambient target filesystem and operation outcomes: each field fixes
the result the corresponding primitive would return.  `accessW` is the
first `unix.Access(dir, W_OK)` check in `prepWrite`; `accessWAfter` is the
re-check made after the `chmod(dir, OpenDirPerm)` grant. -/
structure Env where
  statRes : String → Except GoErr OsStat
  accessW : String → Bool
  accessWAfter : String → Bool
  chmodRes : String → Nat → Option GoErr
  chownRes : String → Nat → Nat → Option GoErr
  lstatRes : String → LstatRes
  removeAllRes : String → Option GoErr
  removeRes : String → Option GoErr
  pathExists : String → Bool
  mkdirRes : String → Option GoErr
  symlinkRes : String → String → Option GoErr
  mkfifoRes : String → Option GoErr
  listenRes : String → Option GoErr
  mknodRes : String → Option GoErr
  openRes : String → Option GoErr
  copyRes : String → Int × Option GoErr

/-- The `Extractor` struct of `extract.go` (configuration fields only; the
mutable `cleanups` slice is threaded explicitly through the model). -/
structure Extractor where
  Dir : String := ""
  WhiteOuts : Bool := false
  Owners : Bool := false
  Perms : Bool := false
  Devs : Bool := false
  Sockets : Bool := false

/-- Model of `filepath.Join(a, b)` for the clean arguments the engine
builds paths from. -/
def joinPath (a b : String) : String :=
  if a = "" then b
  else if a.data.getLast? = some '/' then a ++ b
  else a ++ "/" ++ b

/-- Splitting a character list on `'/'`. -/
def splitSlash : List Char → List (List Char)
  | [] => [[]]
  | c :: rest =>
    let r := splitSlash rest
    if c = '/' then [] :: r
    else
      match r with
      | [] => [[c]]
      | h :: t => (c :: h) :: t

/-- Joining strings with `'/'` separators. -/
def joinSlash : List String → String
  | [] => ""
  | [s] => s
  | s :: rest => s ++ "/" ++ joinSlash rest

/-- Model of `filepath.Dir`. -/
def dirname (p : String) : String :=
  let comps := (splitSlash p.data).map fun cs => String.mk cs
  if comps.length ≤ 1 then "."
  else
    let d := joinSlash comps.dropLast
    if d = "" then "/" else d

/-- A deferred restore action: the closures stored by the engine are all of
the form `e.Ops.Chmod(path, oldMode)`, so a pair of path and mode models
one closure. -/
abbrev CleanupEntry : Type := String × Nat

/-- Running the local cleanup returned by `prepWrite` (`none` models the
no-op closure). -/
def runLocalCleanup (env : Env) : Option (String × Nat) → List FsOp × Option GoErr
  | none => ([], none)
  | some (d, m) => ([.chmod d m], env.chmodRes d m)

/-- Second half of `prepWrite` (`extract.go` lines 359-383): reconcile a
pre-existing object at the target path itself. -/
def prepWriteTarget (env : Env) (path : String) (finfo : FileInfo)
    (cleanup : Option (String × Nat)) (ops : List FsOp) :
    Option (String × Nat) × List FsOp × Option GoErr :=
  match env.lstatRes path with
  | .notExist => (cleanup, ops, none)
  | .err e => (cleanup, ops, some e)
  | .ok pathFinfo =>
    if pathFinfo.mode &&& ModeDir ≠ 0 then
      if finfo.FMode &&& ModeDir ≠ 0 then
        (cleanup, ops, none)
      else
        (cleanup, ops ++ [.removeAllOp path], env.removeAllRes path)
    else
      (cleanup, ops ++ [.removeOp path], env.removeRes path)

/-- Port of `(*Extractor).prepWrite` (`extract.go` lines 329-383).  Returns
the local cleanup to run after the creation attempt, the trace of issued
operations, and the error result. -/
def prepWrite (env : Env) (path : String) (finfo : FileInfo) :
    Option (String × Nat) × List FsOp × Option GoErr :=
  let dir := dirname path
  match env.statRes dir with
  | .error e => (none, [], some e)
  | .ok dirFinfo =>
    if dirFinfo.mode &&& ModeDir = 0 then
      (none, [], some (.msg ("dirname(" ++ path ++ ") = " ++ dir ++ " : not a directory")))
    else if env.accessW dir then
      prepWriteTarget env path finfo none []
    else
      let oldPerms := dirFinfo.mode
      match env.chmodRes dir OpenDirPerm with
      | some e => (none, [.chmod dir OpenDirPerm], some e)
      | none =>
        if env.accessWAfter dir then
          prepWriteTarget env path finfo (some (dir, oldPerms)) [.chmod dir OpenDirPerm]
        else
          match env.chmodRes dir oldPerms with
          | some _ =>
            (none, [.chmod dir OpenDirPerm, .chmod dir oldPerms],
              some (.msg ("cannot make " ++ dir ++ " writable, failed setting back")))
          | none =>
            (none, [.chmod dir OpenDirPerm, .chmod dir oldPerms],
              some (.msg ("cannot make " ++ dir ++ " writable")))

/-- Port of `(*Extractor).doCreate` (`extract.go` lines 386-401).
`creator` is the trace and result of the type-specific creation primitive;
it is only spliced in when `prepWrite` reported no error, as in the
source. -/
def doCreate (env : Env) (path : String) (fInfo : FileInfo)
    (creator : List FsOp × Option GoErr) : List FsOp × Option GoErr :=
  let r := prepWrite env path fInfo
  let cleanup := r.1
  let ops1 := r.2.1
  let err := r.2.2
  let step2 : List FsOp × Option GoErr :=
    match err with
    | none => creator
    | some _ => ([], none)
  let cl := runLocalCleanup env cleanup
  let res : Option GoErr :=
    match cl.2, step2.2 with
    | some ce, none => some ce
    | _, cErr => cErr
  (ops1 ++ step2.1 ++ cl.1, res)

/-- Port of `(*Extractor).extractDir` (`extract.go` lines 305-316):
`os.Mkdir` with the default directory perm; an `os.IsExist` failure is
treated as success. -/
def extractDir (e : Extractor) (env : Env) (path : String) : List FsOp × Option GoErr :=
  let fpath := joinPath e.Dir path
  ([.mkdirOp fpath DefaultDirPerm],
    match env.mkdirRes fpath with
    | some ge => if ge = .errExist then none else some ge
    | none => none)

/-- Port of `(*Extractor).extractSymlink`. -/
def extractSymlink (e : Extractor) (env : Env) (path : String) (info : FileInfo) :
    List FsOp × Option GoErr :=
  let targetPath := joinPath e.Dir path
  doCreate env targetPath info
    ([.symlinkOp info.SymlinkTarget targetPath], env.symlinkRes info.SymlinkTarget targetPath)

/-- Port of `(*Extractor).extractNamedPipe`. -/
def extractNamedPipe (e : Extractor) (env : Env) (path : String) (info : FileInfo) :
    List FsOp × Option GoErr :=
  let targetPath := joinPath e.Dir path
  doCreate env targetPath info ([.mkfifoOp targetPath], env.mkfifoRes targetPath)

/-- Port of `(*Extractor).extractSocket`. -/
def extractSocket (e : Extractor) (env : Env) (path : String) (info : FileInfo) :
    List FsOp × Option GoErr :=
  let targetPath := joinPath e.Dir path
  doCreate env targetPath info ([.listenOp targetPath], env.listenRes targetPath)

/-- Port of `(*Extractor).extractBlockDevice`. -/
def extractBlockDevice (e : Extractor) (env : Env) (path : String) (info : FileInfo) :
    List FsOp × Option GoErr :=
  let targetPath := joinPath e.Dir path
  doCreate env targetPath info ([.mknodOp targetPath], env.mknodRes targetPath)

/-- Port of `(*Extractor).extractCharDevice`. -/
def extractCharDevice (e : Extractor) (env : Env) (path : String) (info : FileInfo) :
    List FsOp × Option GoErr :=
  let targetPath := joinPath e.Dir path
  doCreate env targetPath info ([.mknodOp targetPath], env.mknodRes targetPath)

/-- Port of `(*Extractor).extractIrregular`. -/
def extractIrregular (path : String) : List FsOp × Option GoErr :=
  ([], some (.msg ("cannot extract Irregular file " ++ path)))

/-- Port of `(*Extractor).extractRegular` (`extract.go` lines 270-299).
Note that the source only assigns `finalError` inside the
`err == nil` arm of the `io.Copy` result, so a copy that fails with an
I/O error leaves `finalError` nil. -/
def extractRegular (e : Extractor) (env : Env) (path : String) (info : FileInfo) :
    List FsOp × Option GoErr :=
  let targetPath := joinPath e.Dir path
  let r := prepWrite env targetPath info
  let cleanup := r.1
  let ops1 := r.2.1
  let perr := r.2.2
  let step2 : List FsOp × Option GoErr :=
    match perr with
    | some pe => ([], some pe)
    | none =>
      match env.openRes targetPath with
      | some oe => ([.openOp targetPath], some oe)
      | none =>
        let c := env.copyRes targetPath
        match c.2 with
        | none =>
          if c.1 ≠ info.FSize then
            ([.openOp targetPath, .copyOp targetPath],
              some (.sizeMismatch c.1 targetPath info.FSize path))
          else ([.openOp targetPath, .copyOp targetPath], none)
        | some _ => ([.openOp targetPath, .copyOp targetPath], none)
  let cl := runLocalCleanup env cleanup
  let finalError : Option GoErr :=
    match step2.2 with
    | some fe => some fe
    | none => cl.2
  (ops1 ++ step2.1 ++ cl.1, finalError)

/-- Port of `(*Extractor).applyWhiteOut` (`extract.go` lines 318-325). -/
def applyWhiteOut (e : Extractor) (env : Env) (path : String) : List FsOp × Option GoErr :=
  let fp := joinPath e.Dir path
  if env.pathExists fp then ([.removeAllOp fp], env.removeAllRes fp)
  else ([], none)

/-- Port of `getWhiteOut` (`extract.go` lines 407-416): a char-device entry
whose `Stat_t.Rdev` is 0 is a whiteout marker. -/
def getWhiteOut (info : FileInfo) : String :=
  if info.FMode &&& ModeCharDevice ≠ 0 then
    if info.rdev = 0 then info.Filename else ""
  else ""

/-- Port of the ownership/permission tail of `(*Extractor).extract`
(`extract.go` lines 191-224): optional chown, then (except for symlinks)
chmod, force-adding owner read/write on a directory whose perm bits have
neither and appending a deferred restore of the recorded mode to the
cleanup list. -/
def extractMeta (e : Extractor) (env : Env) (path : String) (info : FileInfo)
    (cleanups : List CleanupEntry) :
    List FsOp × List CleanupEntry × Option GoErr :=
  let fpath := joinPath e.Dir path
  let ownerStep : List FsOp × Option GoErr :=
    if e.Owners then
      ([.chown fpath info.uid info.gid], env.chownRes fpath info.uid info.gid)
    else ([], none)
  match ownerStep with
  | (ops1, some err) => (ops1, cleanups, some err)
  | (ops1, none) =>
    if e.Perms then
      let mode := info.FMode
      if mode &&& ModeSymlink = 0 then
        let needRW := mode &&& ModeDir ≠ 0 ∧ (mode &&& 0o777) &&& 0o600 = 0
        let mode2 := if needRW then mode ||| 0o600 else mode
        let cleanups2 := if needRW then cleanups ++ [((fpath, mode) : CleanupEntry)] else cleanups
        (ops1 ++ [.chmod fpath mode2], cleanups2, env.chmodRes fpath mode2)
      else (ops1, cleanups, none)
    else (ops1, cleanups, none)

/-- Dispatch of `(*Extractor).extract` over the entry's mode bits
(`extract.go` lines 152-185).  A `none` result models the `return nil`
taken when sockets or device nodes are disabled by configuration (which
skips the ownership/permission tail as well). -/
def extractDispatch (e : Extractor) (env : Env) (path : String) (info : FileInfo) :
    Option (List FsOp × Option GoErr) :=
  let mode := info.FMode
  if mode &&& ModeDir ≠ 0 then some (extractDir e env path)
  else if mode &&& ModeSymlink ≠ 0 then some (extractSymlink e env path info)
  else if mode &&& ModeSocket ≠ 0 then
    if !e.Sockets then none else some (extractSocket e env path info)
  else if mode &&& ModeNamedPipe ≠ 0 then some (extractNamedPipe e env path info)
  else if mode &&& ModeDevice ≠ 0 then
    if !e.Devs then none else some (extractBlockDevice e env path info)
  else if mode &&& ModeCharDevice ≠ 0 then
    if !e.Devs then none else some (extractCharDevice e env path info)
  else if mode &&& ModeIrregular ≠ 0 then some (extractIrregular path)
  else if mode &&& ModeType = 0 then some (extractRegular e env path info)
  else some ([], some (.msg ("could not determine file type of " ++ path)))

/-- Port of the visitor `(*Extractor).extract` (`extract.go` lines
138-225).  The mutable `e.cleanups` slice is threaded as an explicit
argument and result. -/
def Extractor.extract (e : Extractor) (env : Env) (cleanups : List CleanupEntry)
    (path : String) (info : FileInfo) (perr : Option GoErr) :
    List FsOp × List CleanupEntry × Option GoErr :=
  match perr with
  | some pe => ([], cleanups, some pe)
  | none =>
    if getWhiteOut info ≠ "" then
      if !e.WhiteOuts then ([], cleanups, none)
      else
        let w := applyWhiteOut e env path
        (w.1, cleanups, w.2)
    else
      match extractDispatch e env path info with
      | none => ([], cleanups, none)
      | some (ops, some err) => (ops, cleanups, some err)
      | some (ops, none) =>
        let m := extractMeta e env path info cleanups
        (ops ++ m.1, m.2.1, m.2.2)

/-- The cleanup drain loop of `(*Extractor).Extract` (`extract.go` lines
122-129), including its accumulator update
`if cleanErr != nil { cleanErr = err }` exactly as written in the
source. -/
def drainLoop (env : Env) : List CleanupEntry → Option GoErr → List FsOp × Option GoErr
  | [], acc => ([], acc)
  | (p, m) :: rest, acc =>
    let r := env.chmodRes p m
    let acc2 : Option GoErr :=
      match r with
      | some err => if acc ≠ none then some err else acc
      | none => acc
    let rec' := drainLoop env rest acc2
    (FsOp.chmod p m :: rec'.1, rec'.2)

/-- Draining starts with a nil `cleanErr`. -/
def drainCleanups (env : Env) (cs : List CleanupEntry) : List FsOp × Option GoErr :=
  drainLoop env cs none

/-- Port of the tail of `(*Extractor).Extract` (`extract.go` lines
120-135): the walk's operation trace, error, and accumulated cleanup list
are followed by the drain of the cleanup list; the walk's error takes
precedence over the drain's accumulated error. -/
def extractorFinish (env : Env) (walkOps : List FsOp) (walkErr : Option GoErr)
    (cs : List CleanupEntry) : List FsOp × Option GoErr :=
  let d := drainCleanups env cs
  (walkOps ++ d.1,
    match walkErr with
    | some e => some e
    | none => d.2)

/-- An abstract source tree as the walker of `libcfsops.go` consumes it:
each node carries the `FileInfo` its `Lstat` produces, the error result of
`Readdirnames` on it (meaningful for directories), and its named children;
a `Sum.inl` child models a child whose `Lstat` fails with that error. -/
inductive STree where
  | mk : FileInfo → Option GoErr → List (String × Sum GoErr STree) → STree
deriving Repr

/-- The `FileInfo` of a tree node. -/
def STree.info : STree → FileInfo
  | .mk i _ _ => i

/-- A visitor, as in `WalkFunc`: receives the path, the entry info and the
lookup error, and returns `none` (continue), `some .skipDir`, or another
error (abort). -/
abbrev WalkFn : Type := String → FileInfo → Option GoErr → Option GoErr

/-- One recorded visitor invocation: the path and the error argument the
visitor was called with. -/
abbrev Visit : Type := String × Option GoErr

mutual

/-- Port of the recursive helper `walk` (`libcfsops.go` lines 247-283),
additionally recording the trace of visitor invocations. -/
def walkT (path : String) (t : STree) (f : WalkFn) : List Visit × Option GoErr :=
  match t with
  | .mk info rdErr children =>
    if info.FMode &&& ModeDir = 0 then
      ([(path, none)], f path info none)
    else
      let err1 := f path info rdErr
      if rdErr ≠ none ∨ err1 ≠ none then ([(path, rdErr)], err1)
      else
        let rest := walkChildren path children f
        ((path, rdErr) :: rest.1, rest.2)

/-- The loop over a directory's children inside `walk` (`libcfsops.go`
lines 266-281), with the source's early returns. -/
def walkChildren (ppath : String) (cs : List (String × Sum GoErr STree)) (f : WalkFn) :
    List Visit × Option GoErr :=
  match cs with
  | [] => ([], none)
  | (name, .inl e) :: rest =>
    let filename := joinPath ppath name
    let r := f filename {} (some e)
    if r ≠ none ∧ r ≠ some .skipDir then ([(filename, some e)], r)
    else
      let restR := walkChildren ppath rest f
      ((filename, some e) :: restR.1, restR.2)
  | (name, .inr t) :: rest =>
    let filename := joinPath ppath name
    let sub := walkT filename t f
    match sub.2 with
    | some err =>
      if t.info.FMode &&& ModeDir = 0 ∨ err ≠ .skipDir then (sub.1, some err)
      else
        let restR := walkChildren ppath rest f
        (sub.1 ++ restR.1, restR.2)
    | none =>
      let restR := walkChildren ppath rest f
      (sub.1 ++ restR.1, restR.2)

end

/-- The outcome of opening and `Lstat`-ing the walk root, abstracting the
first lines of `(*SquashFs).Walk`. -/
inductive RootRes where
  | openErr (e : GoErr)
  | lstatErr (e : GoErr)
  | ok (t : STree)

/-- Port of `(*SquashFs).Walk` (`libcfsops.go` lines 230-245): an open
error returns without visiting; an `Lstat` error is reported to the
visitor; a `SkipDir` outcome of the walk is mapped to no error. -/
def SquashFsWalk (root : String) (r : RootRes) (f : WalkFn) : List Visit × Option GoErr :=
  match r with
  | .openErr e => ([], some e)
  | .lstatErr e =>
    let res := f root { Filename := root } (some e)
    ([(root, some e)], if res = some .skipDir then none else res)
  | .ok t =>
    let w := walkT root t f
    (w.1, if w.2 = some .skipDir then none else w.2)

/-- Octal digit string of a natural number, as Go's `%o` verb prints it
(no leading zeros, and `0` for zero). -/
def octalDigits (n : Nat) : String :=
  if h : n = 0 then ""
  else octalDigits (n / 8) ++ toString (n % 8)
termination_by n
decreasing_by exact Nat.div_lt_self (Nat.pos_of_ne_zero h) (by decide)

/-- Go `fmt.Sprintf("%o", n)`. -/
def natToOctal (n : Nat) : String :=
  if n = 0 then "0" else octalDigits n

/-- Port of `FakerootOps.Mknod` (`extract.go` lines 73-100) up to the
construction of the external command's argument vector: the stored device
number is split into major `Rdev / 256` and minor `Rdev % 256` for block
and char devices, while a fifo gets an empty major/minor list. -/
def fakerootMknodCmd (path : String) (info : FileInfo) : Except GoErr (List String) :=
  let majMin := [toString (info.rdev / 256), toString (info.rdev % 256)]
  let modeArg := "--mode=" ++ natToOctal (info.FMode &&& 0o777)
  if info.FMode &&& ModeCharDevice ≠ 0 then
    .ok (["mknod", modeArg, path, "c"] ++ majMin)
  else if info.FMode &&& ModeDevice ≠ 0 then
    .ok (["mknod", modeArg, path, "b"] ++ majMin)
  else if info.FMode &&& ModeNamedPipe ≠ 0 then
    .ok (["mknod", modeArg, path, "p"])
  else
    .error (.msg (path ++ " is not a char, block or fifo"))

/-- A benign target filesystem: every primitive succeeds, the parent of
every path is a writable directory, and no target path pre-exists. -/
def idealEnv : Env := {
  statRes := fun _ => .ok ⟨ModeDir ||| 0o755⟩
  accessW := fun _ => true
  accessWAfter := fun _ => true
  chmodRes := fun _ _ => none
  chownRes := fun _ _ _ => none
  lstatRes := fun _ => .notExist
  removeAllRes := fun _ => none
  removeRes := fun _ => none
  pathExists := fun _ => false
  mkdirRes := fun _ => none
  symlinkRes := fun _ _ => none
  mkfifoRes := fun _ => none
  listenRes := fun _ => none
  mknodRes := fun _ => none
  openRes := fun _ => none
  copyRes := fun _ => (0, none)
}

/-- An environment whose content copy ends early, after 3 of the expected
bytes, without reporting an I/O error. -/
def shortCopyEnv : Env := { idealEnv with copyRes := fun _ => (3, none) }

/-- An environment whose content copy fails with an I/O error after
writing nothing. -/
def copyErrEnv : Env :=
  { idealEnv with copyRes := fun _ => (0, some (.ioErr "read failed")) }

/-- An environment in which every chmod fails, so that every drained
cleanup reports an error. -/
def chmodFailEnv : Env :=
  { idealEnv with chmodRes := fun _ _ => some (.ioErr "chmod failed") }

/-- The trace of the drain loop is exactly one chmod per recorded cleanup,
in list order, whatever the accumulator is. -/
theorem drainLoop_trace (env : Env) (cs : List CleanupEntry) (acc : Option GoErr) :
    (drainLoop env cs acc).1 = cs.map fun c => FsOp.chmod c.1 c.2 := by
  induction cs generalizing acc with
  | nil => rfl
  | cons c rest ih =>
    obtain ⟨p, m⟩ := c
    simp [drainLoop, ih]

/-- Since the accumulator starts nil and the source updates it only under
`cleanErr != nil`, the drain's accumulated error is always nil. -/
theorem drainLoop_err (env : Env) (cs : List CleanupEntry) :
    (drainLoop env cs none).2 = none := by
  induction cs with
  | nil => rfl
  | cons c rest ih =>
    obtain ⟨p, m⟩ := c
    cases h : env.chmodRes p m <;> simp [drainLoop, h, ih]

/-- Claim C2: for every run of Extract, the deferred Cleanup actions
accumulated during the walk are executed exactly once each, in the order
they were appended, strictly after the walk has finished (the whole-run
trace is the walk's trace followed by one chmod per cleanup in append
order), regardless of whether the walk succeeded or failed; and when the
walk produced an error, Extract returns the walk's error, whatever the
cleanup actions returned. -/
theorem claim2_extract_drain (env : Env) (walkOps : List FsOp) (walkErr : Option GoErr)
    (cs : List CleanupEntry) :
    (extractorFinish env walkOps walkErr cs).1 =
      walkOps ++ (cs.map fun c => FsOp.chmod c.1 c.2) ∧
    (∀ e, walkErr = some e → (extractorFinish env walkOps walkErr cs).2 = some e) := by
  refine ⟨?_, ?_⟩
  · simp [extractorFinish, drainCleanups, drainLoop_trace]
  · intro e he
    simp [extractorFinish, he]

/-- Claim C2 witness: a run with a failing walk and two cleanups that both
fail still drains both cleanups in order after the walk's operations and
returns the walk's error. -/
theorem claim2_extract_drain_witness :
    (extractorFinish chmodFailEnv [FsOp.mkdirOp "/t/a" DefaultDirPerm] (some (.msg "walk failed"))
        [("/t/a", ModeDir ||| 0o500), ("/t/b", ModeDir ||| 0o100)]).1 =
      [FsOp.mkdirOp "/t/a" DefaultDirPerm, FsOp.chmod "/t/a" (ModeDir ||| 0o500),
        FsOp.chmod "/t/b" (ModeDir ||| 0o100)] ∧
    (extractorFinish chmodFailEnv [FsOp.mkdirOp "/t/a" DefaultDirPerm] (some (.msg "walk failed"))
        [("/t/a", ModeDir ||| 0o500), ("/t/b", ModeDir ||| 0o100)]).2 = some (.msg "walk failed") := by
  have h := claim2_extract_drain chmodFailEnv [FsOp.mkdirOp "/t/a" DefaultDirPerm]
    (some (.msg "walk failed")) [("/t/a", ModeDir ||| 0o500), ("/t/b", ModeDir ||| 0o100)]
  exact ⟨by rw [h.1]; rfl, h.2 _ rfl⟩

/-- Claim C10: the accumulated cleanup-error variable of Extract is never
assigned a failure (the source's guard `cleanErr != nil` can never hold
starting from nil), so Extract's return value always equals the walk's
result even when cleanup actions fail while drained. -/
theorem claim10_cleanup_error_unassigned (env : Env) (walkOps : List FsOp)
    (walkErr : Option GoErr) (cs : List CleanupEntry) :
    (drainCleanups env cs).2 = none ∧
    (extractorFinish env walkOps walkErr cs).2 = walkErr := by
  refine ⟨drainLoop_err env cs, ?_⟩
  cases walkErr <;> simp [extractorFinish, drainCleanups, drainLoop_err]

/-- Claim C10 witness: with a nil walk error and two cleanups that both
fail, Extract still returns no error. -/
theorem claim10_cleanup_error_unassigned_witness :
    (extractorFinish chmodFailEnv [] none
        [("/t/a", ModeDir ||| 0o500), ("/t/b", ModeDir ||| 0o100)]).2 = none :=
  (claim10_cleanup_error_unassigned chmodFailEnv [] none
    [("/t/a", ModeDir ||| 0o500), ("/t/b", ModeDir ||| 0o100)]).2

/-- Claim C1 counterexample: a directory entry with recorded mode `0500`
(owner write missing, owner read present) extracted with
permission-restoration enabled is chmod'd during the walk directly to its
recorded mode `0500` and no deferred Cleanup is registered — the engine's
augmentation condition `mode.Perm()&0600 == 0` is false at `0500`, so the
claim's example behaviour does not happen. -/
theorem claim1_counterexample :
    extractMeta { Dir := "/t", Perms := true } idealEnv "d"
        { Filename := "d", FMode := ModeDir ||| 0o500 } [] =
      ([FsOp.chmod "/t/d" (ModeDir ||| 0o500)], [], none) ∧
    (ModeDir ||| 0o500) &&& 0o200 = 0 := by
  constructor
  · decide
  · decide

/-- Claim C1 (amended): for a directory entry whose recorded permission
bits contain neither owner read nor owner write (`perm &&& 0600 = 0`,
e.g. `0100`; a mode such as `0500` does not qualify), extracting with
permission-restoration enabled applies the augmented mode with owner
read/write force-added during the walk and appends a deferred restore of
the recorded mode to the cleanup list, and in the whole run that restoring
chmod occurs only in the drain phase, after every walk operation. -/
theorem claim1_dir_rw_repair (e : Extractor) (env : Env) (path : String)
    (info : FileInfo) (cs : List CleanupEntry)
    (hperm : e.Perms = true) (hown : e.Owners = false)
    (hsym : info.FMode &&& ModeSymlink = 0)
    (hdir : info.FMode &&& ModeDir ≠ 0)
    (hrw : (info.FMode &&& 0o777) &&& 0o600 = 0) :
    extractMeta e env path info cs =
      ([FsOp.chmod (joinPath e.Dir path) (info.FMode ||| 0o600)],
        cs ++ [((joinPath e.Dir path, info.FMode) : CleanupEntry)],
        env.chmodRes (joinPath e.Dir path) (info.FMode ||| 0o600)) ∧
    ∀ walkOps walkErr,
      (extractorFinish env walkOps walkErr
          (cs ++ [((joinPath e.Dir path, info.FMode) : CleanupEntry)])).1 =
        walkOps ++ (cs.map fun c => FsOp.chmod c.1 c.2) ++
          [FsOp.chmod (joinPath e.Dir path) info.FMode] := by
  constructor
  · simp [extractMeta, hperm, hown, hsym, hdir, hrw]
  · intro walkOps walkErr
    simp [extractorFinish, drainCleanups, drainLoop_trace]

/-- Claim C1 witness: a directory with recorded mode `0100` under an
extractor with permission restoration: the walk-time chmod uses
`0100 | 0600 = 0700`, the cleanup list gains the restore to `0100`, and
the whole-run trace ends with that restoring chmod after the walk ops. -/
theorem claim1_dir_rw_repair_witness :
    extractMeta ({ Dir := "/t", Perms := true } : Extractor) idealEnv "d"
        { Filename := "d", FMode := ModeDir ||| 0o100 } [] =
      ([FsOp.chmod "/t/d" (ModeDir ||| 0o700)], [("/t/d", ModeDir ||| 0o100)], none) ∧
    (extractorFinish idealEnv [FsOp.mkdirOp "/t/d" DefaultDirPerm] none
        [("/t/d", ModeDir ||| 0o100)]).1 =
      [FsOp.mkdirOp "/t/d" DefaultDirPerm, FsOp.chmod "/t/d" (ModeDir ||| 0o100)] := by
  have h := claim1_dir_rw_repair { Dir := "/t", Perms := true } idealEnv "d"
    { Filename := "d", FMode := ModeDir ||| 0o100 } [] rfl rfl (by decide) (by decide) (by decide)
  refine ⟨?_, ?_⟩
  · rw [h.1]; decide
  · have h2 := h.2 [FsOp.mkdirOp "/t/d" DefaultDirPerm] none
    simpa using h2

/-- Claim C3 counterexample: when the content copy fails with an I/O error
after writing 0 of the recorded 5 bytes, `extractRegular` nevertheless
returns no error — so "extraction succeeds only if the number of bytes
copied equals the recorded size" is false as stated over all sources. -/
theorem claim3_counterexample :
    (extractRegular { Dir := "/t" } copyErrEnv "f" { Filename := "f", FSize := 5 }).2 = none ∧
    (0 : Int) ≠ 5 := by
  constructor
  · decide
  · decide

/-- Claim C3 (amended): for every regular-file entry whose content copy
reports no I/O error, extraction succeeds only if the number of bytes
copied equals the entry's recorded size; in particular a source stream
that ends early without an I/O error yields the size-mismatch error. -/
theorem claim3_size_invariant (e : Extractor) (env : Env) (path : String)
    (info : FileInfo) (w : Int)
    (hprep : (prepWrite env (joinPath e.Dir path) info).2.2 = none)
    (hopen : env.openRes (joinPath e.Dir path) = none)
    (hcopy : env.copyRes (joinPath e.Dir path) = (w, none)) :
    (w ≠ info.FSize →
      (extractRegular e env path info).2 =
        some (.sizeMismatch w (joinPath e.Dir path) info.FSize path)) ∧
    ((extractRegular e env path info).2 = none → w = info.FSize) := by
  constructor
  · intro hw
    simp [extractRegular, hprep, hopen, hcopy, hw]
  · intro hres
    by_contra hw
    rw [(by simp [extractRegular, hprep, hopen, hcopy, hw] :
      (extractRegular e env path info).2 =
        some (.sizeMismatch w (joinPath e.Dir path) info.FSize path))] at hres
    exact Option.noConfusion hres

/-- Claim C3 witness: a stream of 3 error-free bytes against a recorded
size of 5 produces the size-mismatch error. -/
theorem claim3_size_invariant_witness :
    (extractRegular { Dir := "/t" } shortCopyEnv "f" { Filename := "f", FSize := 5 }).2 =
      some (.sizeMismatch 3 (joinPath "/t" "f") 5 "f") :=
  (claim3_size_invariant { Dir := "/t" } shortCopyEnv "f" { Filename := "f", FSize := 5 } 3
    (by decide) (by decide) (by decide)).1 (by decide)

/-- Claim C5: the code drops a content-copy I/O error.  `extractRegular`
assigns `finalError` only inside the `err == nil` arm of the `io.Copy`
result, so when the copy fails (here with `prepWrite` succeeding without a
parent-mode grant and the target open succeeding) the function returns no
error instead of propagating the source-read error as the specification
requires. -/
theorem claim5_copy_error_swallowed (e : Extractor) (env : Env) (path : String)
    (info : FileInfo) (w : Int) (err : GoErr)
    (hprep : prepWrite env (joinPath e.Dir path) info = (none, [], none))
    (hopen : env.openRes (joinPath e.Dir path) = none)
    (hcopy : env.copyRes (joinPath e.Dir path) = (w, some err)) :
    (extractRegular e env path info).2 = none := by
  simp [extractRegular, hprep, hopen, hcopy, runLocalCleanup]

/-- Claim C5 witness: a concrete failing copy (I/O error after 0 of 7
bytes) for which extraction of the entry reports success. -/
theorem claim5_copy_error_swallowed_witness :
    (extractRegular { Dir := "/t" } copyErrEnv "g" { Filename := "g", FSize := 7 }).2 = none :=
  claim5_copy_error_swallowed { Dir := "/t" } copyErrEnv "g" { Filename := "g", FSize := 7 }
    0 (.ioErr "read failed") (by decide) (by decide) (by decide)

/-- Claim C4: for every entry classified as a whiteout (char-device with
combined device number 0, i.e. major/minor (0,0), and a non-empty name):
with whiteout handling enabled the target path is recursively removed when
it exists and nothing else is done (no creation, no metadata, no cleanup
registration), absence of the path is not an error, and with whiteout
handling disabled the entry is skipped entirely with the target untouched
and no error. -/
theorem claim4_whiteout (e : Extractor) (env : Env) (cs : List CleanupEntry)
    (path : String) (info : FileInfo)
    (hcd : info.FMode &&& ModeCharDevice ≠ 0) (hdev : info.rdev = 0)
    (hname : info.Filename ≠ "") :
    (e.WhiteOuts = true → env.pathExists (joinPath e.Dir path) = true →
      Extractor.extract e env cs path info none =
        ([FsOp.removeAllOp (joinPath e.Dir path)], cs,
          env.removeAllRes (joinPath e.Dir path))) ∧
    (e.WhiteOuts = true → env.pathExists (joinPath e.Dir path) = false →
      Extractor.extract e env cs path info none = ([], cs, none)) ∧
    (e.WhiteOuts = false →
      Extractor.extract e env cs path info none = ([], cs, none)) := by
  refine ⟨?_, ?_, ?_⟩ <;> intro hw
  · intro hex
    simp [Extractor.extract, getWhiteOut, hcd, hdev, hname, hw, applyWhiteOut, hex]
  · intro hex
    simp [Extractor.extract, getWhiteOut, hcd, hdev, hname, hw, applyWhiteOut, hex]
  · simp [Extractor.extract, getWhiteOut, hcd, hdev, hname, hw]

/-- Claim C4 witness: a whiteout entry at `a/b` with whiteouts enabled and
the target present removes `/t/a/b` recursively and creates nothing. -/
theorem claim4_whiteout_witness :
    Extractor.extract { Dir := "/t", WhiteOuts := true }
        { idealEnv with pathExists := fun _ => true } [] "a/b"
        { Filename := "b", FMode := ModeCharDevice ||| 0o644, rdev := 0 } none =
      ([FsOp.removeAllOp "/t/a/b"], [], none) := by
  have h := (claim4_whiteout { Dir := "/t", WhiteOuts := true }
    { idealEnv with pathExists := fun _ => true } [] "a/b"
    { Filename := "b", FMode := ModeCharDevice ||| 0o644, rdev := 0 }
    (by decide) (by decide) (by decide)).1 rfl rfl
  rw [h]; decide

/-- Claim C7: `prepWrite`, under a stat-able, writable directory parent,
reconciles a pre-existing target exactly as claimed: an absent target
needs nothing; an existing directory is left alone when the new entry is a
directory; an existing directory is recursively removed when the new entry
is not a directory; an existing non-directory is unlinked. -/
theorem claim7_prep_reconcile (env : Env) (path : String) (finfo : FileInfo) (ds : OsStat)
    (hstat : env.statRes (dirname path) = .ok ds)
    (hdsdir : ds.mode &&& ModeDir ≠ 0)
    (hacc : env.accessW (dirname path) = true) :
    (env.lstatRes path = .notExist → prepWrite env path finfo = (none, [], none)) ∧
    (∀ ps, env.lstatRes path = .ok ps → ps.mode &&& ModeDir ≠ 0 →
      finfo.FMode &&& ModeDir ≠ 0 → prepWrite env path finfo = (none, [], none)) ∧
    (∀ ps, env.lstatRes path = .ok ps → ps.mode &&& ModeDir ≠ 0 →
      finfo.FMode &&& ModeDir = 0 →
      prepWrite env path finfo = (none, [FsOp.removeAllOp path], env.removeAllRes path)) ∧
    (∀ ps, env.lstatRes path = .ok ps → ps.mode &&& ModeDir = 0 →
      prepWrite env path finfo = (none, [FsOp.removeOp path], env.removeRes path)) := by
  refine ⟨?_, ?_, ?_, ?_⟩
  · intro hl
    simp [prepWrite, prepWriteTarget, hstat, hdsdir, hacc, hl]
  · intro ps hl hpd hfd
    simp [prepWrite, prepWriteTarget, hstat, hdsdir, hacc, hl, hpd, hfd]
  · intro ps hl hpd hfd
    simp [prepWrite, prepWriteTarget, hstat, hdsdir, hacc, hl, hpd, hfd]
  · intro ps hl hpd
    simp [prepWrite, prepWriteTarget, hstat, hdsdir, hacc, hl, hpd]

/-- Claim C7 witness: with an absent target under a writable directory
parent, `prepWrite` does nothing and returns no error and a no-op
cleanup. -/
theorem claim7_prep_reconcile_witness :
    prepWrite idealEnv "/t/f" { Filename := "f" } = (none, [], none) :=
  (claim7_prep_reconcile idealEnv "/t/f" { Filename := "f" } ⟨ModeDir ||| 0o755⟩
    rfl (by decide) rfl).1 rfl

/-- Claim C8 counterexample: a directory entry whose permission bits are
all zero is chmod'd with the augmented mode `ModeDir ||| 0600`, not with
the entry's recorded mode — so "all other successfully materialized entry
types receive chmod with the entry's mode" fails for such directories. -/
theorem claim8_counterexample :
    (extractMeta { Dir := "/t", Perms := true } idealEnv "d"
        { Filename := "d", FMode := ModeDir } []).1 =
      [FsOp.chmod "/t/d" (ModeDir ||| 0o600)] ∧
    ModeDir ||| 0o600 ≠ ModeDir := by
  constructor
  · decide
  · decide

/-- Claim C8 (amended): with permission-restoration enabled the engine
never invokes chmod on a symlink entry's target path, while every other
entry type whose materialization succeeded receives exactly one chmod —
with the entry's recorded mode, except a directory lacking both owner
read and write, which receives the owner-read/write-augmented mode. -/
theorem claim8_symlink_exemption (e : Extractor) (env : Env) (path : String)
    (info : FileInfo) (cs : List CleanupEntry) (hperm : e.Perms = true) :
    (info.FMode &&& ModeSymlink ≠ 0 →
      ∀ p m, FsOp.chmod p m ∉ (extractMeta e env path info cs).1) ∧
    (info.FMode &&& ModeSymlink = 0 → e.Owners = false →
      (extractMeta e env path info cs).1 =
        [FsOp.chmod (joinPath e.Dir path)
          (if info.FMode &&& ModeDir ≠ 0 ∧ (info.FMode &&& 0o777) &&& 0o600 = 0
            then info.FMode ||| 0o600 else info.FMode)]) := by
  constructor
  · intro hsym p m
    cases hown : e.Owners with
    | false => simp [extractMeta, hown, hperm, hsym]
    | true =>
      cases hch : env.chownRes (joinPath e.Dir path) info.uid info.gid with
      | none => simp [extractMeta, hown, hperm, hsym, hch]
      | some err => simp [extractMeta, hown, hperm, hsym, hch]
  · intro hsym hown
    by_cases hrw : info.FMode &&& ModeDir ≠ 0 ∧ (info.FMode &&& 0o777) &&& 0o600 = 0
    · simp [extractMeta, hown, hperm, hsym, hrw]
    · simp [extractMeta, hown, hperm, hsym, hrw]

/-- Claim C8 witness: a symlink entry extracted with ownership and
permission restoration enabled is never chmod'd. -/
theorem claim8_symlink_exemption_witness :
    FsOp.chmod "/t/l" 0o777 ∉
      (extractMeta { Dir := "/t", Owners := true, Perms := true } idealEnv "l"
        { Filename := "l", FMode := ModeSymlink ||| 0o777, SymlinkTarget := "x" } []).1 :=
  (claim8_symlink_exemption { Dir := "/t", Owners := true, Perms := true } idealEnv "l"
    { Filename := "l", FMode := ModeSymlink ||| 0o777, SymlinkTarget := "x" } [] rfl).1
    (by decide) "/t/l" 0o777

/-- Claim C9: the external-command mknod variant decomposes the stored
device number into major `devNo / 256` and minor `devNo % 256` and passes
both (as the last two arguments) for char and block devices, and passes no
major/minor numbers for a fifo. -/
theorem claim9_mknod_majmin (path : String) (info : FileInfo) :
    (info.FMode &&& ModeCharDevice ≠ 0 →
      fakerootMknodCmd path info =
        .ok (["mknod", "--mode=" ++ natToOctal (info.FMode &&& 0o777), path, "c",
          toString (info.rdev / 256), toString (info.rdev % 256)])) ∧
    (info.FMode &&& ModeCharDevice = 0 → info.FMode &&& ModeDevice ≠ 0 →
      fakerootMknodCmd path info =
        .ok (["mknod", "--mode=" ++ natToOctal (info.FMode &&& 0o777), path, "b",
          toString (info.rdev / 256), toString (info.rdev % 256)])) ∧
    (info.FMode &&& ModeCharDevice = 0 → info.FMode &&& ModeDevice = 0 →
      info.FMode &&& ModeNamedPipe ≠ 0 →
      fakerootMknodCmd path info =
        .ok (["mknod", "--mode=" ++ natToOctal (info.FMode &&& 0o777), path, "p"])) := by
  refine ⟨?_, ?_, ?_⟩
  · intro hc
    simp [fakerootMknodCmd, hc]
  · intro hc hb
    simp [fakerootMknodCmd, hc, hb]
  · intro hc hb hp
    simp [fakerootMknodCmd, hc, hb, hp]

/-- Claim C9 witness: a char device with combined device number 263 is
passed major 1 and minor 7, and a fifo gets a four-element command line
with no major/minor. -/
theorem claim9_mknod_majmin_witness :
    fakerootMknodCmd "/dev/x" { Filename := "x", FMode := ModeCharDevice ||| 0o640, rdev := 263 } =
      .ok ["mknod", "--mode=" ++ natToOctal ((ModeCharDevice ||| 0o640) &&& 0o777), "/dev/x", "c",
        toString (263 / 256), toString (263 % 256)] ∧
    fakerootMknodCmd "/dev/p" { Filename := "p", FMode := ModeNamedPipe ||| 0o600 } =
      .ok ["mknod", "--mode=" ++ natToOctal ((ModeNamedPipe ||| 0o600) &&& 0o777), "/dev/p", "p"] :=
  ⟨(claim9_mknod_majmin "/dev/x"
      { Filename := "x", FMode := ModeCharDevice ||| 0o640, rdev := 263 }).1 (by decide),
    (claim9_mknod_majmin "/dev/p"
      { Filename := "p", FMode := ModeNamedPipe ||| 0o600 }).2.2 (by decide) (by decide) (by decide)⟩

/-- A directory node visited with a nil readdir error whose visitor
returns `SkipDir` yields exactly one visit (the directory itself) and the
`SkipDir` outcome. -/
theorem walkT_dir_skip (path : String) (info : FileInfo)
    (children : List (String × Sum GoErr STree)) (f : WalkFn)
    (hdir : info.FMode &&& ModeDir ≠ 0) (hf : f path info none = some .skipDir) :
    walkT path (.mk info none children) f = ([(path, none)], some .skipDir) := by
  simp [walkT, hdir, hf]

/-- A sibling list headed by a directory child for which the visitor
returns `SkipDir` contributes just that one visit and continues with the
remaining siblings. -/
theorem walkChildren_skipdir_sibling (ppath name : String) (info : FileInfo)
    (children : List (String × Sum GoErr STree)) (rest : List (String × Sum GoErr STree))
    (f : WalkFn) (hdir : info.FMode &&& ModeDir ≠ 0)
    (hf : f (joinPath ppath name) info none = some .skipDir) :
    walkChildren ppath ((name, Sum.inr (.mk info none children)) :: rest) f =
      ((joinPath ppath name, (none : Option GoErr)) :: (walkChildren ppath rest f).1,
        (walkChildren ppath rest f).2) := by
  have h1 := walkT_dir_skip (joinPath ppath name) info children f hdir hf
  simp [walkChildren, h1, STree.info, hdir]

/-- Claim C6: a visitor returning the skip-dir sentinel for a directory
causes no visit of any path under that directory (conjunct one: the
subtree contributes only the directory's own visit); the walk continues
with the directory's siblings unchanged (conjunct two); and a skip-dir
sentinel raised at the top level makes the overall walk result no error
(conjunct three). -/
theorem claim6_walk_skipdir :
    (∀ (path : String) (info : FileInfo) (children : List (String × Sum GoErr STree))
        (f : WalkFn), info.FMode &&& ModeDir ≠ 0 → f path info none = some .skipDir →
      walkT path (.mk info none children) f = ([(path, none)], some .skipDir)) ∧
    (∀ (ppath name : String) (info : FileInfo)
        (children rest : List (String × Sum GoErr STree)) (f : WalkFn),
      info.FMode &&& ModeDir ≠ 0 → f (joinPath ppath name) info none = some .skipDir →
      walkChildren ppath ((name, Sum.inr (.mk info none children)) :: rest) f =
        ((joinPath ppath name, (none : Option GoErr)) :: (walkChildren ppath rest f).1,
          (walkChildren ppath rest f).2)) ∧
    (∀ (root : String) (info : FileInfo) (children : List (String × Sum GoErr STree))
        (f : WalkFn), info.FMode &&& ModeDir ≠ 0 → f root info none = some .skipDir →
      (SquashFsWalk root (.ok (.mk info none children)) f).2 = none) := by
  refine ⟨fun path info children f hdir hf => walkT_dir_skip path info children f hdir hf,
    fun ppath name info children rest f hdir hf =>
      walkChildren_skipdir_sibling ppath name info children rest f hdir hf,
    fun root info children f hdir hf => ?_⟩
  simp [SquashFsWalk, walkT_dir_skip root info children f hdir hf]

/-- A visitor that returns the skip-dir sentinel exactly at `/x`. -/
def skipXVisitor : WalkFn :=
  fun p _ _ => if p = "/x" then some .skipDir else none

/-- A plain regular-file leaf node for walker examples. -/
def wLeaf (n : String) : STree := .mk { Filename := n, FMode := 0o644 } none []

/-- Claim C6 witness: skipping `/x` (which contains `/x/a`) still visits
the sibling `/y`, and only `/x` itself is visited inside the skipped
subtree. -/
theorem claim6_walk_skipdir_witness :
    walkChildren "/"
        [("x", Sum.inr (.mk { Filename := "x", FMode := ModeDir ||| 0o755 } none
            [("a", Sum.inr (wLeaf "a"))])),
          ("y", Sum.inr (wLeaf "y"))] skipXVisitor =
      ([("/x", none), ("/y", none)], none) := by
  have h := claim6_walk_skipdir.2.1 "/" "x" { Filename := "x", FMode := ModeDir ||| 0o755 }
    [("a", Sum.inr (wLeaf "a"))] [("y", Sum.inr (wLeaf "y"))] skipXVisitor
    (by decide) (by decide)
  rw [h]
  decide

end Squashfs
